import Mathlib

/-
  Verification development for the RAG_demo SQL pipeline
  (src/agents/sql_agent_components/*).

  Python strings are modelled as lists of characters (`Str`); the source
  operates on ASCII SQL text, so ASCII-only case mapping is faithful here.
  Python dicts with a fixed key set are modelled as structures; fallible
  code paths (including uncaught Python exceptions such as IndexError and
  KeyError, which the callers catch and turn into a missing result) are
  modelled with Option.
-/

abbrev Str := List Char

/-- Characters of a Lean string literal, the embedding of a Python string literal. -/
def chars (x : String) : Str := x.data

/-- The ASCII apostrophe character, written indirectly. -/
def qc : Char := Char.ofNat 39

/-- The backslash character. -/
def bs : Char := '\\'

/-- Python regex word character over ASCII: letters, digits, underscore. -/
def isWordChar (c : Char) : Bool := c.isAlphanum || c == '_'

/-- Python regex whitespace over ASCII: space, tab, newline, CR, VT, FF. -/
def isSpaceChar (c : Char) : Bool :=
  c == ' ' || c == '\t' || c == '\n' || c == '\r' || c == Char.ofNat 11 || c == Char.ofNat 12

/-- Python str.upper restricted to ASCII. -/
def upperStr (s : Str) : Str := s.map Char.toUpper

/-- Python str.lower restricted to ASCII. -/
def lowerStr (s : Str) : Str := s.map Char.toLower

/-- Python str.strip(): drop whitespace at both ends. -/
def stripStr (s : Str) : Str :=
  ((s.dropWhile isSpaceChar).reverse.dropWhile isSpaceChar).reverse

/-- Python `needle in hay` substring test. -/
def containsSubB (hay needle : Str) : Bool :=
  hay.tails.any (fun t => needle.isPrefixOf t)

/-- The proposition that `needle` occurs as a contiguous substring of `hay`. -/
def occursIn (needle hay : Str) : Prop := ∃ p s, hay = p ++ needle ++ s

/-- Python str.count for a single character. -/
def countChar (c : Char) (s : Str) : Nat := s.count c

/-- Python str.count: number of non-overlapping occurrences, scanning left to
right. The scan consumes at least one character per step, so fuel equal to the
length of the text is never exhausted. -/
def countSubstrGo : Nat → Str → Str → Nat
  | 0, _, _ => 0
  | _ + 1, [], _ => 0
  | fuel + 1, c :: rest, needle =>
    if needle.isPrefixOf (c :: rest) && decide (1 ≤ needle.length) then
      countSubstrGo fuel ((c :: rest).drop needle.length) needle + 1
    else
      countSubstrGo fuel rest needle

/-- Python str.count of a substring. -/
def countSubstr (hay needle : Str) : Nat := countSubstrGo hay.length hay needle

/-- Match of the regex `\b<kw>\b` at position i of s (kw made of word characters). -/
def wordMatchAt (s kw : Str) (i : Nat) : Bool :=
  kw.isPrefixOf (s.drop i)
  && (i == 0 || !(isWordChar (s.getD (i - 1) ' ')))
  && (!(isWordChar (s.getD (i + kw.length) ' ')))

/-- re.search of `\b<kw>\b` over s: some whole-word occurrence exists. -/
def hasWordOccurrence (s kw : Str) : Bool :=
  (List.range (s.length + 1)).any (fun i => wordMatchAt s kw i)

/-- QueryValidator.dangerous_keywords (a Python set; listed here in the source order). -/
def dangerousKeywords : List Str :=
  [chars "DROP", chars "DELETE", chars "UPDATE", chars "INSERT", chars "ALTER",
   chars "CREATE", chars "TRUNCATE", chars "EXEC", chars "EXECUTE", chars "MERGE",
   chars "BULK"]

/-- QueryValidator._check_dangerous_operations: the errors list it produces. -/
def checkDangerousErrors (sql : Str) : List Str :=
  dangerousKeywords.filterMap (fun kw =>
    if hasWordOccurrence (upperStr sql) kw then
      some (chars "Dangerous operation detected: " ++ kw)
    else none)

/-- Split a string at newline characters (Python str.split semantics for one
separator character). -/
def splitOnNewline : Str → List Str
  | [] => [[]]
  | '\n' :: rest => [] :: splitOnNewline rest
  | c :: rest =>
    match splitOnNewline rest with
    | l :: ls => (c :: l) :: ls
    | [] => [[c]]

/-- Truncate one line at its first `--`. -/
def truncAtDashDash : Str → Str
  | '-' :: '-' :: _ => []
  | c :: rest => c :: truncAtDashDash rest
  | [] => []

/-- Python str.join over a separator string. -/
def joinSep (sep : Str) : List Str → Str
  | [] => []
  | [x] => x
  | x :: xs => x ++ sep ++ joinSep sep xs

/-- re.sub of single-line comments `--.*$` (MULTILINE): each line truncated at its
first `--`; the line terminators are kept. -/
def removeLineComments (s : Str) : Str :=
  joinSep [Char.ofNat 10] ((splitOnNewline s).map truncAtDashDash)

/-- Scan for the first closing `*/`, returning the remainder after it. -/
def splitAfterClose : Str → Option Str
  | [] => none
  | '*' :: '/' :: rest => some rest
  | _ :: rest => splitAfterClose rest

/-- re.sub of block comments `/\*.*?\*/` (DOTALL, non-greedy), scanning left to
right. When an opener has no closing marker anywhere after it, nothing further
matches and the remainder is kept verbatim, as in the Python regex engine. Each
step consumes at least one character, so fuel equal to the length of the text is
never exhausted. -/
def removeBlockCommentsGo : Nat → Str → Str
  | 0, s => s
  | _ + 1, [] => []
  | fuel + 1, '/' :: '*' :: rest =>
    match splitAfterClose rest with
    | some rem => removeBlockCommentsGo fuel rem
    | none => '/' :: '*' :: rest
  | fuel + 1, c :: rest => c :: removeBlockCommentsGo fuel rest

/-- Removal of all closed block comments. -/
def removeBlockComments (s : Str) : Str := removeBlockCommentsGo s.length s

/-- QueryValidator._remove_comments: line comments removed first, then block comments. -/
def remove_comments (sql : Str) : Str :=
  removeBlockComments (removeLineComments sql)

/-- QueryValidator._check_sql_syntax: the errors list it produces.
The single-quote and double-quote balances are computed as Python int
subtractions, hence over Int. -/
def checkSyntaxErrors (sql0 : Str) : List Str :=
  let sql := remove_comments sql0
  (if countChar '(' sql ≠ countChar ')' sql then [chars "Unbalanced parentheses"] else [])
  ++ (if ((countChar qc sql : Int) - (countSubstr sql [bs, qc] : Int)) % 2 ≠ 0 then
        [chars "Unbalanced single quotes"] else [])
  ++ (if ((countChar '"' sql : Int) - (countSubstr sql [bs, '"'] : Int)) % 2 ≠ 0 then
        [chars "Unbalanced double quotes"] else [])
  ++ (if !((chars "SELECT").isPrefixOf (stripStr (upperStr sql))) then
        [chars "Query must start with SELECT"] else [])
  ++ (if 1 < countChar ';' sql then [chars "Multiple semicolons detected"] else [])

/-- Match of the regex `;\s*--` anywhere in s: a semicolon, optional whitespace,
then a line comment opener. -/
def matchSemiDashDash (s : Str) : Bool :=
  s.tails.any (fun t =>
    match t with
    | ';' :: r => (chars "--").isPrefixOf (r.dropWhile isSpaceChar)
    | _ => false)

/-- Match of the regex `;\s*/\*` anywhere in s. -/
def matchSemiBlockOpen (s : Str) : Bool :=
  s.tails.any (fun t =>
    match t with
    | ';' :: r => (chars "/*").isPrefixOf (r.dropWhile isSpaceChar)
    | _ => false)

/-- Scan for `--` reachable without crossing a newline (the `.*--` tail of a pattern). -/
def dashDashNoNewline : Str → Bool
  | '-' :: '-' :: _ => true
  | '\n' :: _ => false
  | _ :: r => dashDashNoNewline r
  | [] => false

/-- Match of the regex `union\s+select.*--` anywhere in s (s already lowercased). -/
def matchUnionSelectComment (s : Str) : Bool :=
  s.tails.any (fun t =>
    (chars "union").isPrefixOf t
    && (let r := (t.drop 5)
        let w := r.takeWhile isSpaceChar
        decide (1 ≤ w.length)
        && (chars "select").isPrefixOf (r.drop w.length)
        && dashDashNoNewline (r.drop (w.length + 6))))

/-- Scan for the first occurrence of `needle` reachable without crossing a newline,
returning the remainder after it. -/
def scanNoNewlineFor (needle : Str) : Str → Option Str
  | [] => none
  | c :: r =>
    if needle.isPrefixOf (c :: r) then some ((c :: r).drop needle.length)
    else if c = '\n' then none
    else scanNoNewlineFor needle r

/-- Match of the regex `/\*.*\*/.*select` anywhere in s (s already lowercased);
the dot does not cross newlines. -/
def matchCommentThenSelect (s : Str) : Bool :=
  s.tails.any (fun t =>
    (chars "/*").isPrefixOf t
    && (match scanNoNewlineFor (chars "*/") (t.drop 2) with
        | some r1 => (scanNoNewlineFor (chars "select") r1).isSome
        | none => false))

/-- QueryValidator._check_sql_injection: the errors list it produces. -/
def checkInjectionErrors (sql : Str) : List Str :=
  let l := lowerStr sql
  (if matchSemiDashDash l then
     [chars "Potential SQL injection pattern detected: ;\\s*--"] else [])
  ++ (if matchSemiBlockOpen l then
        [chars "Potential SQL injection pattern detected: ;\\s*/\\*"] else [])
  ++ (if matchUnionSelectComment l then
        [chars "Potential SQL injection pattern detected: union\\s+select.*--"] else [])
  ++ (if matchCommentThenSelect l then
        [chars "Potential SQL injection pattern detected: /\\*.*\\*/.*select"] else [])
  ++ (if containsSubB l (chars "<script") || containsSubB l (chars "javascript:") then
        [chars "Script injection attempt detected"] else [])

/-- QueryValidator._check_performance: the warnings list it produces. -/
def checkPerformanceWarnings (sql : Str) : List Str :=
  let u := upperStr sql
  (if containsSubB u (chars "SELECT *") && containsSubB u (chars "FROM") then
     [chars "SELECT * detected - consider specifying columns"] else [])
  ++ (if containsSubB u (chars "FROM") && !containsSubB u (chars "WHERE") then
        [chars "Query without WHERE clause may be slow on large tables"] else [])
  ++ (if 0 < countSubstr u (chars "JOIN")
         && countSubstr u (chars " ON ") < countSubstr u (chars "JOIN") then
        [chars "Potential Cartesian product - missing JOIN conditions"] else [])

/-- The dict returned by QueryValidator.validate_query. -/
structure ValidationOutcome where
  valid : Bool
  safe : Bool
  errors : List Str
  warnings : List Str
deriving DecidableEq

/-- QueryValidator.validate_query: dangerous-operation, syntax and injection errors
collected in order; performance findings go to warnings; `valid` is emptiness of the
errors, `safe` is absence of an error whose lowercase text contains "dangerous". -/
def validate_query (sql : Str) : ValidationOutcome :=
  let errors := checkDangerousErrors sql ++ checkSyntaxErrors sql ++ checkInjectionErrors sql
  let warnings := checkPerformanceWarnings sql
  { valid := errors.isEmpty
    safe := (errors.filter (fun e => containsSubB (lowerStr e) (chars "dangerous"))).isEmpty
    errors := errors
    warnings := warnings }

/-- A SQL value as handled by the pipeline (floats are outside the modelled scope;
the claims under verification never depend on them). -/
inductive SqlValue where
  | vNull : SqlValue
  | vInt : Int → SqlValue
  | vText : Str → SqlValue
deriving DecidableEq

/-- A result row: the dict produced from a sqlite3.Row (column name to value,
in column order, keys unique). -/
abbrev Row := List (Str × SqlValue)

/-- Python dict.get on a row. -/
def lookupRow (row : Row) (key : Str) : Option SqlValue :=
  (row.find? (fun p => decide (p.1 = key))).map (fun p => p.2)

/-- The behaviour of the sqlite3 connection on one statement: either the full
underlying result set (rows in cursor order, plus cursor.description column names),
or one of the three error categories the executor distinguishes. -/
inductive DbOutcome where
  | ok : List Row → List Str → DbOutcome
  | operationalError : Str → DbOutcome
  | integrityError : Str → DbOutcome
  | unexpectedError : Str → DbOutcome

/-- The dict returned by QueryExecutor.execute_query / execute_read_query.
Fields absent from the corresponding Python dict are `none`; the wall-clock
execution_time entry is outside the modelled scope. -/
structure ExecResult where
  success : Bool
  data : Option (List Row) := none
  columns : Option (List Str) := none
  row_count : Option Nat := none
  has_more : Option Bool := none
  error : Option Str := none
  error_type : Option Str := none
  query : Str
deriving DecidableEq

/-- QueryExecutor.max_rows, set in __init__. -/
def maxRows : Nat := 1000

/-- QueryExecutor.execute_query over a database behaviour `db`: on success,
cursor.fetchmany(max_rows) takes the first max_rows rows and the subsequent
cursor.fetchone probe sets has_more; each error category maps to its dict. -/
def execute_query (db : Str → DbOutcome) (sql : Str) : ExecResult :=
  match db sql with
  | DbOutcome.ok rows cols =>
    let fetched := rows.take maxRows
    { success := true
      data := some fetched
      columns := some cols
      row_count := some fetched.length
      has_more := some (!(rows.drop maxRows).isEmpty)
      query := sql }
  | DbOutcome.operationalError m =>
    { success := false
      error := some (chars "SQL execution error: " ++ m)
      error_type := some (chars "operational")
      query := sql }
  | DbOutcome.integrityError m =>
    { success := false
      error := some (chars "Data integrity error: " ++ m)
      error_type := some (chars "integrity")
      query := sql }
  | DbOutcome.unexpectedError m =>
    { success := false
      error := some (chars "Unexpected error during query execution: " ++ m)
      error_type := some (chars "unexpected")
      query := sql }

/-- QueryExecutor.execute_read_query: requires the statement to start with SELECT
(after upper-casing and stripping) before delegating to execute_query. -/
def execute_read_query (db : Str → DbOutcome) (sql : Str) : ExecResult :=
  if (chars "SELECT").isPrefixOf (stripStr (upperStr sql)) then
    execute_query db sql
  else
    { success := false
      error := some (chars "Only SELECT queries are allowed in read mode")
      error_type := some (chars "safety")
      query := sql }

/-- The structured intent dict. `.get` defaults from the source are realised by
the field types: absent list keys behave as the empty list, absent aggregation
and limit as `none`. -/
structure Intent where
  tables : List Str := []
  columns : List Str := []
  filters : List Str := []
  aggregation : Option Str := none
  group_by : List Str := []
  order_by : List Str := []
  limit : Option Int := none
deriving DecidableEq

/-- Schema information: table name to its column-name list, in dict insertion
order. The foreign_keys entry of the source dict is never read by the code under
verification and is omitted. -/
abbrev SchemaInfo := List (Str × List Str)

/-- Python `table in schema_info` / `schema_info[table]['columns']` access. -/
def lookupTable (schema : SchemaInfo) (t : Str) : Option (List Str) :=
  (schema.find? (fun p => decide (p.1 = t))).map (fun p => p.2)

/-- Assoc-list lookup, the model of Python dict.get on a literal mapping. -/
def lookupAssoc (m : List (Str × Str)) (k : Str) : Option Str :=
  (m.find? (fun p => decide (p.1 = k))).map (fun p => p.2)

/-- `col.lower().replace(' ', '_')` applied before a semantic-mapping lookup. -/
def normalizeCol (c : Str) : Str :=
  (lowerStr c).map (fun ch => if ch = ' ' then '_' else ch)

/-- Python str(int). -/
def intToStr (n : Int) : Str := (toString n).data

/-- The semantic column mapping inside QueryGenerator._fix_column_mappings. -/
def semanticMappingFix : List (Str × Str) :=
  [(chars "price", chars "price"),
   (chars "avg_price", chars "price"),
   (chars "average_price", chars "price"),
   (chars "transaction_price", chars "price"),
   (chars "sale_price", chars "price"),
   (chars "market_price", chars "avg_ft_price"),
   (chars "net_price", chars "avg_net_ft_price"),
   (chars "rent_price", chars "avg_ft_rent"),
   (chars "net_rent_price", chars "avg_net_ft_rent"),
   (chars "avg_net_ft_price", chars "price")]

/-- The semantic column mapping inside QueryGenerator._select_aggregation_column
(it lacks the avg_net_ft_price entry of the other copy). -/
def semanticMappingSelect : List (Str × Str) :=
  [(chars "price", chars "price"),
   (chars "avg_price", chars "price"),
   (chars "average_price", chars "price"),
   (chars "transaction_price", chars "price"),
   (chars "sale_price", chars "price"),
   (chars "market_price", chars "avg_ft_price"),
   (chars "net_price", chars "avg_net_ft_price"),
   (chars "rent_price", chars "avg_ft_rent"),
   (chars "net_rent_price", chars "avg_net_ft_rent")]

/-- QueryGenerator._find_column_table: the first named table whose schema entry
contains the column. -/
def find_column_table (column : Str) (tables : List Str) (schema : SchemaInfo) :
    Option Str :=
  tables.find? (fun t =>
    match lookupTable schema t with
    | some cols => decide (column ∈ cols)
    | none => false)

/-- QueryGenerator._column_exists_in_tables. -/
def column_exists_in_tables (column : Str) (tables : List Str) (schema : SchemaInfo) :
    Bool :=
  (find_column_table column tables schema).isSome

/-- The price-related fallback candidates used by the generator. -/
def priceCandidates : List Str :=
  [chars "price", chars "avg_ft_price", chars "avg_net_ft_price", chars "unit_price"]

/-- QueryGenerator._find_fallback_column: price-domain candidates when the invalid
name mentions price, then a two-way substring match over the named tables. -/
def find_fallback_column (invalidCol : Str) (tables : List Str) (schema : SchemaInfo) :
    Option Str :=
  let fromPrice :=
    if containsSubB (lowerStr invalidCol) (chars "price") then
      priceCandidates.find? (fun cand => column_exists_in_tables cand tables schema)
    else none
  match fromPrice with
  | some c => some c
  | none =>
    tables.findSome? (fun t =>
      match lookupTable schema t with
      | some cols =>
        cols.find? (fun col =>
          containsSubB (lowerStr col) (lowerStr invalidCol)
          || containsSubB (lowerStr invalidCol) (lowerStr col))
      | none => none)

/-- The per-column resolution step of QueryGenerator._fix_column_mappings. -/
def fixOneColumn (tables : List Str) (schema : SchemaInfo) (col : Str) : Str :=
  match lookupAssoc semanticMappingFix (normalizeCol col) with
  | some mapped =>
    if column_exists_in_tables mapped tables schema then mapped
    else if column_exists_in_tables col tables schema then col
    else
      match find_fallback_column col tables schema with
      | some fb => fb
      | none => col
  | none =>
    if column_exists_in_tables col tables schema then col
    else
      match find_fallback_column col tables schema with
      | some fb => fb
      | none => col

/-- QueryGenerator._fix_column_mappings: a shallow copy of the intent whose
columns entry is rebound to the resolved list; no other entry is touched. -/
def fix_column_mappings (intent : Intent) (schema : SchemaInfo) : Intent :=
  { intent with columns := intent.columns.map (fixOneColumn intent.tables schema) }

/-- Python truthiness of the aggregation entry (a string: nonempty). -/
def aggTruthy : Option Str → Bool
  | none => false
  | some a => !a.isEmpty

/-- QueryGenerator._determine_query_type. -/
def determine_query_type (intent : Intent) : Str :=
  if aggTruthy intent.aggregation && decide (1 < intent.tables.length) then
    chars "aggregation_with_join"
  else if aggTruthy intent.aggregation then
    chars "simple_aggregation"
  else
    chars "simple_select"

/-- The fixed alias table of QueryGenerator._get_table_alias. -/
def aliasTable : List (Str × Str) :=
  [(chars "estates", chars "e"),
   (chars "buildings", chars "b"),
   (chars "units", chars "u"),
   (chars "transactions", chars "t"),
   (chars "estate_school_nets", chars "esn"),
   (chars "estate_mtr_lines", chars "eml"),
   (chars "estate_facilities", chars "ef"),
   (chars "facilities", chars "f"),
   (chars "districts", chars "d"),
   (chars "subregions", chars "sr"),
   (chars "regions", chars "r"),
   (chars "phases", chars "p"),
   (chars "estate_monthly_market_info", chars "emmi")]

/-- QueryGenerator._get_table_alias: the alias table with a first-letter fallback.
The Python default argument `table_name[0]` is evaluated eagerly, so the empty
table name raises IndexError; that exception is modelled as `none`. -/
def get_table_alias (t : Str) : Option Str :=
  match t with
  | [] => none
  | c :: _ => some ((lookupAssoc aliasTable t).getD [c])

/-- QueryGenerator._build_join_path: the one hardcoded pattern, triggered when
both estates and transactions are named; the schema argument is never read. -/
def build_join_path (tables : List Str) (_schema : SchemaInfo) :
    Option (Str × List Str) :=
  if decide (chars "estates" ∈ tables) && decide (chars "transactions" ∈ tables) then
    some (chars "estates e",
      [chars "JOIN buildings b ON e.estate_id = b.estate_id",
       chars "JOIN units u ON b.building_id = u.building_id",
       chars "JOIN transactions t ON u.unit_id = t.unit_id"])
  else
    none

/-- The `\s*(.+)` tail of the filter pattern: the whitespace run yields
characters back until the dot-plus group can match at least one non-newline
character, exactly as the Python engine backtracks. When everything after the
equals sign is whitespace, the match ends on the last whitespace character that
is not a newline. -/
def matchFilterValue (rest : Str) : Option Str :=
  let w := rest.takeWhile isSpaceChar
  match rest.drop w.length with
  | c :: r => some ((c :: r).takeWhile (fun x => !(x == '\n')))
  | [] => (w.reverse.find? (fun c => !(c == '\n'))).map (fun c => [c])

/-- re.match of `(\w+)\s*=\s*(.+)` on a filter string: a leading word-character
run, optional whitespace, an equals sign, then the backtracking value match. -/
def parseFilter (f : Str) : Option (Str × Str) :=
  let w := f.takeWhile isWordChar
  if w.isEmpty then none
  else
    match (f.drop w.length).dropWhile isSpaceChar with
    | '=' :: r2 => (matchFilterValue r2).map (fun v => (w, v))
    | _ => none

/-- The per-filter body of QueryGenerator._build_where_conditions: parse the
filter, attribute the column to the first named table containing it, and qualify
with `e` or `t` only for estates / transactions in multi-table queries, with the
full table name otherwise. -/
def renderFilterCondition (tables : List Str) (schema : SchemaInfo) (f : Str) :
    Option Str :=
  match parseFilter f with
  | none => none
  | some (column, value) =>
    match find_column_table column tables schema with
    | none => none
    | some t =>
      if decide (1 < tables.length) && decide (t = chars "estates") then
        some (chars "e." ++ column ++ chars " = " ++ value)
      else if decide (1 < tables.length) && decide (t = chars "transactions") then
        some (chars "t." ++ column ++ chars " = " ++ value)
      else
        some (t ++ chars "." ++ column ++ chars " = " ++ value)

/-- QueryGenerator._build_where_conditions. -/
def build_where_conditions (filters : List Str) (tables : List Str)
    (schema : SchemaInfo) : Option Str :=
  if filters.isEmpty then none
  else
    let conditions := filters.filterMap (renderFilterCondition tables schema)
    if conditions.isEmpty then none else some (joinSep (chars " AND ") conditions)

/-- The first loop of QueryGenerator._select_aggregation_column: semantic mapping
with an existence check, continuing on failure. -/
def selectSemantic (tables : List Str) (schema : SchemaInfo) : List Str → Option Str
  | [] => none
  | col :: rest =>
    match lookupAssoc semanticMappingSelect (normalizeCol col) with
    | some mapped =>
      if column_exists_in_tables mapped tables schema then some mapped
      else selectSemantic tables schema rest
    | none => selectSemantic tables schema rest

/-- QueryGenerator._select_aggregation_column. -/
def select_aggregation_column (intent : Intent) (schema : SchemaInfo) : Option Str :=
  match selectSemantic intent.tables schema intent.columns with
  | some c => some c
  | none =>
    match intent.columns.find?
        (fun col => column_exists_in_tables col intent.tables schema) with
    | some c => some c
    | none =>
      priceCandidates.find? (fun cand => column_exists_in_tables cand intent.tables schema)

/-- `intent.get('aggregation', 'avg')`: an absent key defaults to avg (the code
only reaches this with a truthy aggregation present). -/
def getAgg : Option Str → Str
  | some a => a
  | none => chars "avg"

/-- QueryGenerator._generate_simple_aggregation_query; the IndexError raised on
an empty tables or columns list propagates to generate_query and is modelled as
`none`. -/
def generate_simple_aggregation_query (intent : Intent) (schema : SchemaInfo) :
    Option Str :=
  match intent.tables with
  | [] => none
  | table :: _ =>
    if table.isEmpty then none
    else
      match lookupTable schema table with
      | none => none
      | some cols =>
        let agg := getAgg intent.aggregation
        match intent.columns with
        | [] => none
        | column :: _ =>
          if column.isEmpty then none
          else if !(decide (column ∈ cols)) then none
          else
            let sql := chars "SELECT " ++ upperStr agg ++ chars "(" ++ column
              ++ chars ") AS " ++ agg ++ chars "_" ++ column ++ chars " FROM " ++ table
            let sql :=
              if intent.filters.isEmpty then sql
              else
                match build_where_conditions intent.filters [table] schema with
                | some w => sql ++ chars " WHERE " ++ w
                | none => sql
            some sql

/-- QueryGenerator._generate_simple_select_query. -/
def generate_simple_select_query (intent : Intent) (schema : SchemaInfo) :
    Option Str :=
  match intent.tables with
  | [] => none
  | table :: _ =>
    if table.isEmpty then none
    else
      match lookupTable schema table with
      | none => none
      | some _ =>
        let selectClause :=
          if intent.columns = [chars "*"] then chars "*"
          else joinSep (chars ", ") intent.columns
        let sql := chars "SELECT " ++ selectClause ++ chars " FROM " ++ table
        let sql :=
          if intent.filters.isEmpty then sql
          else
            match build_where_conditions intent.filters [table] schema with
            | some w => sql ++ chars " WHERE " ++ w
            | none => sql
        let sql :=
          if intent.order_by.isEmpty then sql
          else sql ++ chars " ORDER BY " ++ joinSep (chars ", ") intent.order_by
        let sql :=
          match intent.limit with
          | some n => if n ≠ 0 then sql ++ chars " LIMIT " ++ intToStr n else sql
          | none => sql
        some sql

/-- QueryGenerator._generate_aggregation_join_query. The source's `if not column`
and `if not target_table` guards are Python falsy checks, rejecting the empty
string as well as None; both halves are modelled. -/
def generate_aggregation_join_query (intent : Intent) (schema : SchemaInfo) :
    Option Str :=
  if intent.tables.length < 2 then none
  else
    let agg := getAgg intent.aggregation
    match select_aggregation_column intent schema with
    | none => none
    | some column =>
      if column.isEmpty then none
      else
      match find_column_table column intent.tables schema with
      | none => none
      | some targetTable =>
        if targetTable.isEmpty then none
        else
        match build_join_path intent.tables schema with
        | none => none
        | some (fromClause, joinClauses) =>
          match get_table_alias targetTable with
          | none => none
          | some tableAlias =>
            let selectClause := upperStr agg ++ chars "(" ++ tableAlias ++ chars "."
              ++ column ++ chars ") AS " ++ agg ++ chars "_" ++ column
            let sql := chars "SELECT " ++ selectClause ++ chars " FROM " ++ fromClause
            let sql :=
              if joinClauses.isEmpty then sql
              else sql ++ chars " " ++ joinSep (chars " ") joinClauses
            let sql :=
              if intent.filters.isEmpty then sql
              else
                match build_where_conditions intent.filters intent.tables schema with
                | some w => sql ++ chars " WHERE " ++ w
                | none => sql
            some sql

/-- QueryGenerator.generate_query: resolve columns, classify the query shape,
dispatch; a falsy (empty or missing) SQL result yields no query. -/
def generate_query (intent : Intent) (schema : SchemaInfo) : Option Str :=
  let fixedIntent := fix_column_mappings intent schema
  let queryType := determine_query_type fixedIntent
  let sql :=
    if queryType = chars "aggregation_with_join" then
      generate_aggregation_join_query fixedIntent schema
    else if queryType = chars "simple_aggregation" then
      generate_simple_aggregation_query fixedIntent schema
    else
      generate_simple_select_query fixedIntent schema
  match sql with
  | some s => if s.isEmpty then none else some s
  | none => none

/-- The dict returned by SchemaValidator.validate_intent. -/
structure IntentValidation where
  valid : Bool
  errors : List Str
  warnings : List Str
  schema_info : SchemaInfo
deriving DecidableEq

/-- All column names across the cached schema (a set in the source; only
membership is ever tested). -/
def allSchemaColumns (cache : SchemaInfo) : List Str :=
  cache.foldr (fun p acc => p.2 ++ acc) []

/-- SchemaValidator._get_relevant_schema_info. -/
def relevantSchemaInfo (cache : SchemaInfo) (tables : List Str) : SchemaInfo :=
  tables.filterMap (fun t => (lookupTable cache t).map (fun cols => (t, cols)))

/-- The accepted aggregation names of SchemaValidator.validate_intent (the
source list also holds Python None, which no string equals). -/
def validAggregations : List Str :=
  [chars "avg", chars "sum", chars "count", chars "max", chars "min"]

/-- SchemaValidator.validate_intent against the cached schema. -/
def validate_intent (cache : SchemaInfo) (intent : Intent) : IntentValidation :=
  let tableErrors :=
    if intent.tables.isEmpty then [chars "No tables specified in intent"]
    else
      intent.tables.filterMap (fun t =>
        if (lookupTable cache t).isSome then none
        else some (chars "Table " ++ [qc] ++ t ++ [qc]
          ++ chars " does not exist in database"))
  let columnChecks : List (Option Str × Option Str) :=
    intent.columns.map (fun c =>
      let found := intent.tables.any (fun t =>
        match lookupTable cache t with
        | some cols => decide (c ∈ cols)
        | none => false)
      if found then (none, none)
      else if decide (c ∈ allSchemaColumns cache) then
        (none, some (chars "Column " ++ [qc] ++ c ++ [qc]
          ++ chars " exists but not in specified tables - may need JOIN"))
      else
        (some (chars "Column " ++ [qc] ++ c ++ [qc]
          ++ chars " does not exist in any table"), none))
  let columnErrors := columnChecks.filterMap (fun p => p.1)
  let columnWarnings := columnChecks.filterMap (fun p => p.2)
  let aggErrors :=
    match intent.aggregation with
    | some a =>
      if !a.isEmpty && !(decide (a ∈ validAggregations)) then
        [chars "Invalid aggregation function: " ++ a]
      else []
    | none => []
  let groupWarnings :=
    intent.group_by.filterMap (fun c =>
      if decide (c ∈ intent.columns) then none
      else some (chars "GROUP BY column " ++ [qc] ++ c ++ [qc]
        ++ chars " not in selected columns"))
  let orderWarnings :=
    intent.order_by.filterMap (fun c =>
      if decide (c ∈ intent.columns) then none
      else some (chars "ORDER BY column " ++ [qc] ++ c ++ [qc]
        ++ chars " not in selected columns"))
  let limitErrors :=
    match intent.limit with
    | some n => if n ≤ 0 then [chars "Invalid LIMIT value: " ++ intToStr n] else []
    | none => []
  let errors := tableErrors ++ columnErrors ++ aggErrors ++ limitErrors
  { valid := errors.isEmpty
    errors := errors
    warnings := columnWarnings ++ groupWarnings ++ orderWarnings
    schema_info := relevantSchemaInfo cache intent.tables }

/-- ResultFormatter.currency_fields. -/
def currencyFields : List Str :=
  [chars "price", chars "avg_price", chars "net_ft_price", chars "avg_ft_price",
   chars "avg_net_ft_price", chars "unit_price", chars "total_price",
   chars "avg_transaction_price"]

/-- ResultFormatter.max_display_rows. -/
def maxDisplayRows : Nat := 10

/-- Thousands grouping of a digit string, as in Python format with a comma. -/
def groupDigitsRev : Str → Str
  | a :: b :: c :: d :: rest => a :: b :: c :: ',' :: groupDigitsRev (d :: rest)
  | l => l

/-- Python f-string thousands grouping of an integer. -/
def intGrouped (n : Int) : Str :=
  if n < 0 then '-' :: (groupDigitsRev (intToStr n.natAbs).reverse).reverse
  else (groupDigitsRev (intToStr n).reverse).reverse

/-- ResultFormatter._format_value on the modelled value types (the float branch
is outside the modelled scope). -/
def format_value (v : SqlValue) (columnName : Str) : Str :=
  match v with
  | SqlValue.vNull => chars "N/A"
  | SqlValue.vInt n =>
    if currencyFields.any (fun cf => containsSubB (lowerStr columnName) cf) then
      chars "HK$" ++ intGrouped n
    else if 1000 < n.natAbs then intGrouped n
    else intToStr n
  | SqlValue.vText s => s

/-- The aggregation indicators of ResultFormatter._is_aggregation_result. -/
def aggIndicators : List Str :=
  [chars "avg", chars "sum", chars "count", chars "min", chars "max", chars "total"]

/-- ResultFormatter._is_aggregation_result. -/
def is_aggregation_result (data : List Row) (columns : List Str) : Bool :=
  if data.isEmpty || columns.isEmpty then false
  else
    columns.any (fun c => aggIndicators.any (fun ind => containsSubB (lowerStr c) ind))

/-- ResultFormatter._is_single_value_result: one row holding one entry. -/
def is_single_value_result (data : List Row) : Bool :=
  match data with
  | [r] => decide (r.length = 1)
  | _ => false

/-- The aggregation-name prefixes stripped by _get_aggregation_description. -/
def aggPrefixes : List Str :=
  [chars "avg_", chars "sum_", chars "count_", chars "min_", chars "max_",
   chars "total_"]

/-- The field alias table of _get_aggregation_description. -/
def fieldAliases : List (Str × Str) :=
  [(chars "price", chars "price"),
   (chars "transaction_price", chars "transaction price"),
   (chars "net_ft_price", chars "net price per sq ft"),
   (chars "avg_ft_price", chars "average price per sq ft")]

/-- ResultFormatter._get_aggregation_description (the question argument is never
read by the source body). -/
def get_aggregation_description (column : Str) : Str :=
  let cl := lowerStr column
  let aggType :=
    if containsSubB cl (chars "avg") then chars "average"
    else if containsSubB cl (chars "sum") then chars "total"
    else if containsSubB cl (chars "count") then chars "count"
    else if containsSubB cl (chars "min") then chars "minimum"
    else if containsSubB cl (chars "max") then chars "maximum"
    else chars "result"
  let fieldName :=
    match aggPrefixes.find? (fun p => p.isPrefixOf cl) with
    | some p => cl.drop p.length
    | none => cl
  let fieldDesc :=
    match lookupAssoc fieldAliases fieldName with
    | some d => d
    | none => fieldName.map (fun ch => if ch = '_' then ' ' else ch)
  chars "The " ++ aggType ++ chars " " ++ fieldDesc

/-- The dict returned by ResultFormatter.format_results and its helpers; fields
absent from a given rendering are `none`. The success key is present only on the
error rendering, exactly as in the source dicts. -/
structure FormattedResult where
  success : Option Bool := none
  result_type : Option Str := none
  display_text : Str := []
  error_type : Option Str := none
  raw_data : Option (List Row) := none
  formatted_values : Option (List (Str × Str)) := none
  formatted_value : Option Str := none
  display_rows : Option Nat := none
  has_more_display : Option Bool := none
  total_rows : Option Nat := none
  has_more : Option Bool := none
  query : Option Str := none
deriving DecidableEq

/-- ResultFormatter._format_error_result (the technical_details payload repeats
fields already present and is not modelled separately). -/
def format_error_result (er : ExecResult) : FormattedResult :=
  let errorMsg := er.error.getD (chars "Unknown error")
  let errorType := er.error_type.getD (chars "unknown")
  { success := some false
    error_type := some errorType
    display_text := chars "❌ Sorry, I couldn" ++ [qc]
      ++ chars "t execute your query: " ++ errorMsg }

/-- ResultFormatter._format_aggregation_result. -/
def format_aggregation_result (data : List Row) (columns : List Str) :
    FormattedResult :=
  match data with
  | [] => { display_text := chars "No data found for your query." }
  | row :: _ =>
    let parts := row.filterMap (fun p =>
      match p.2 with
      | SqlValue.vNull => none
      | v => some (get_aggregation_description p.1 ++ chars ": " ++ format_value v p.1))
    { result_type := some (chars "aggregation")
      display_text := joinSep (chars " ") parts
      raw_data := some data
      formatted_values := some (columns.map (fun c =>
        (c, format_value ((lookupRow row c).getD SqlValue.vNull) c))) }

/-- ResultFormatter._format_single_value_result. A missing key raises KeyError in
the source, modelled as `none`. -/
def format_single_value_result (data : List Row) (columns : List Str) :
    Option FormattedResult :=
  match data, columns with
  | row :: _, col :: _ =>
    match lookupRow row col with
    | some v =>
      some { result_type := some (chars "single_value")
             display_text := chars "The result is: " ++ format_value v col
             raw_data := some data
             formatted_value := some (format_value v col) }
    | none => none
  | _, _ =>
    let col := columns.headD []
    some { result_type := some (chars "single_value")
           display_text := chars "The result is: " ++ format_value SqlValue.vNull col
           raw_data := some data
           formatted_value := some (format_value SqlValue.vNull col) }

/-- ResultFormatter._create_text_table. A missing cell defaults to the empty
string (`row.get(col, '')`), which _format_value renders as itself. -/
def create_text_table (data : List Row) (columns : List Str) : List Str :=
  if data.isEmpty || columns.isEmpty then []
  else
    let header := joinSep (chars " | ") columns
    [header, List.replicate header.length '-']
    ++ data.map (fun row =>
      joinSep (chars " | ")
        (columns.map (fun c =>
          format_value ((lookupRow row c).getD (SqlValue.vText [])) c)))

/-- ResultFormatter._format_table_result (the unused execution-time argument is
omitted). -/
def format_table_result (data : List Row) (columns : List Str) (rowCount : Nat) :
    FormattedResult :=
  match data with
  | [] => { display_text := chars "No results found for your query." }
  | _ =>
    let displayData := data.take maxDisplayRows
    let hasMoreDisplay := decide (maxDisplayRows < data.length)
    let tableLines :=
      [chars "Found " ++ intToStr rowCount ++ chars " results:"]
      ++ (if displayData.length ≤ 5 then create_text_table displayData columns
          else (chars "Showing first " ++ intToStr displayData.length ++ chars " rows:")
            :: create_text_table displayData columns)
      ++ (if hasMoreDisplay then
            [chars "... and " ++ intToStr ((rowCount : Int) - (maxDisplayRows : Int))
              ++ chars " more rows"]
          else [])
    { result_type := some (chars "table")
      display_text := joinSep (chars "\n") tableLines
      raw_data := some data
      display_rows := some displayData.length
      has_more_display := some hasMoreDisplay }

/-- ResultFormatter.format_results: error rendering on failure; otherwise the
aggregation test is applied first, then the single-value test, then the tabular
rendering; metadata entries are added afterwards. `none` models the uncaught
KeyError of the single-value renderer. The execution_time metadata entry is
outside the modelled scope. -/
def format_results (er : ExecResult) (originalQuery : Str) : Option FormattedResult :=
  if er.success = false then some (format_error_result er)
  else
    let data := er.data.getD []
    let columns := er.columns.getD []
    let rowCount := er.row_count.getD 0
    let formatted :=
      if is_aggregation_result data columns then
        some (format_aggregation_result data columns)
      else if is_single_value_result data then
        format_single_value_result data columns
      else
        some (format_table_result data columns rowCount)
    formatted.map (fun fr =>
      { fr with
          query := some originalQuery
          total_rows := some rowCount
          has_more := some (er.has_more.getD false) })

/-- The join chain rendered by the hardcoded estates-transactions pattern. -/
def joinChainStr : Str :=
  chars "JOIN buildings b ON e.estate_id = b.estate_id JOIN units u ON b.building_id = u.building_id JOIN transactions t ON u.unit_id = t.unit_id"

/-- A concrete schema cache shaped like the housing database (matching the
repository test fixtures): transactions carries a price column. -/
def cacheW : SchemaInfo :=
  [(chars "estates", [chars "estate_id", chars "estate_name_en", chars "district"]),
   (chars "transactions",
    [chars "transaction_id", chars "unit_id", chars "price", chars "transaction_date"])]

/-- A schema slice holding estates and buildings, used to exercise the
WHERE-qualifier branches. -/
def schemaC5 : SchemaInfo :=
  [(chars "estates", [chars "estate_id", chars "estate_name_en", chars "district"]),
   (chars "buildings", [chars "building_id", chars "estate_id", chars "building_name"])]

/-- A two-table aggregation intent over estates and transactions. -/
def intentJoinW : Intent :=
  { tables := [chars "estates", chars "transactions"], columns := [chars "price"],
    aggregation := some (chars "avg") }

/-- A valid single-table aggregation intent whose column list is empty. -/
def intentEmptyColsW : Intent :=
  { tables := [chars "transactions"], columns := [], aggregation := some (chars "avg") }

/-- A valid single-table aggregation intent over transactions.price. -/
def intentSimpleAggW : Intent :=
  { tables := [chars "transactions"], columns := [chars "price"],
    aggregation := some (chars "avg") }

/-- A successful one-row one-column execution result whose column name carries an
aggregation fragment. -/
def erAggW : ExecResult :=
  { success := true
    data := some [[(chars "avg_price", SqlValue.vInt 100)]]
    columns := some [chars "avg_price"]
    row_count := some 1
    has_more := some false
    query := chars "q" }

/-- A successful one-row one-column execution result without an aggregation
fragment in the column name. -/
def erSingleW : ExecResult :=
  { success := true
    data := some [[(chars "estate_name_en", SqlValue.vText (chars "Lohas Park"))]]
    columns := some [chars "estate_name_en"]
    row_count := some 1
    has_more := some false
    query := chars "q" }

/-- A successful two-row execution result, classified as tabular. -/
def erTableW : ExecResult :=
  { success := true
    data := some [[(chars "district", SqlValue.vText (chars "Kowloon"))],
                  [(chars "district", SqlValue.vText (chars "Central"))]]
    columns := some [chars "district"]
    row_count := some 2
    has_more := some false
    query := chars "q" }

/-- A database behaviour answering every statement with 1001 rows. -/
def dbRows1001 : Str → DbOutcome :=
  fun _ => DbOutcome.ok (List.replicate 1001 ([] : Row)) [chars "c"]

/-- A database behaviour answering every statement with exactly 1000 rows. -/
def dbRows1000 : Str → DbOutcome :=
  fun _ => DbOutcome.ok (List.replicate 1000 ([] : Row)) [chars "c"]

/-- A database behaviour that always fails, used to observe non-execution. -/
def dbFailW : Str → DbOutcome :=
  fun _ => DbOutcome.operationalError (chars "boom")

/- ------------------------------------------------------------------ -/
/- Helper lemmas shared by the claim theorems.                         -/
/- ------------------------------------------------------------------ -/

theorem occursIn_append_right {n h : Str} (t : Str) (ho : occursIn n h) :
    occursIn n (h ++ t) := by
  obtain ⟨p, s, rfl⟩ := ho
  exact ⟨p, s ++ t, by simp⟩

theorem occursIn_trans {a b h : Str} (h1 : occursIn a b) (h2 : occursIn b h) :
    occursIn a h := by
  obtain ⟨p1, s1, rfl⟩ := h1
  obtain ⟨p2, s2, rfl⟩ := h2
  exact ⟨p2 ++ p1, s1 ++ s2, by simp⟩

theorem isPrefixOf_append_self (n m : Str) : n.isPrefixOf (n ++ m) = true := by
  induction n with
  | nil => simp [List.isPrefixOf]
  | cons a as ih => simp [List.isPrefixOf, ih]

theorem containsSubB_of_prefixOf {h n : Str} (hp : n.isPrefixOf h = true) :
    containsSubB h n = true := by
  unfold containsSubB
  cases h with
  | nil =>
    simp only [List.tails, List.any_cons, List.any_nil, Bool.or_false]
    exact hp
  | cons a t =>
    rw [List.tails]
    simp [hp]

theorem lowerStr_append (a b : Str) : lowerStr (a ++ b) = lowerStr a ++ lowerStr b :=
  List.map_append _ a b

theorem isEmpty_eq_false_of_mem {α : Type} {x : α} {l : List α} (hx : x ∈ l) :
    l.isEmpty = false := by
  cases l with
  | nil => cases hx
  | cons a t => rfl

/- ------------------------------------------------------------------ -/
/- Claim theorems.                                                     -/
/- ------------------------------------------------------------------ -/

/-- C10: for every SQL string, a validation outcome with valid = true also has
safe = true: valid means the error list is empty, and safe can only be false
when some error text mentions a dangerous operation. -/
theorem claim_C10_valid_implies_safe (sql : Str) :
    (validate_query sql).valid = true → (validate_query sql).safe = true := by
  intro h
  simp only [validate_query] at h ⊢
  rw [List.isEmpty_iff] at h
  rw [h]
  rfl

/-- Witness for C10 at a concrete validated statement. -/
theorem claim_C10_witness : (validate_query (chars "SELECT 1")).safe = true :=
  claim_C10_valid_implies_safe (chars "SELECT 1") (by decide)

/-- C9: the Query Generator resolves columns on a derived copy of the intent:
every field of the intent other than columns is carried over unchanged, so the
original intent (a value in this embedding, mirroring the copy-then-rebind in
the source) is never mutated. -/
theorem claim_C9_intent_frame (intent : Intent) (schema : SchemaInfo) :
    (fix_column_mappings intent schema).tables = intent.tables
    ∧ (fix_column_mappings intent schema).filters = intent.filters
    ∧ (fix_column_mappings intent schema).aggregation = intent.aggregation
    ∧ (fix_column_mappings intent schema).group_by = intent.group_by
    ∧ (fix_column_mappings intent schema).order_by = intent.order_by
    ∧ (fix_column_mappings intent schema).limit = intent.limit :=
  ⟨rfl, rfl, rfl, rfl, rfl, rfl⟩

/-- C8: execute_read_query returns a safety failure, without consulting the
database, on any statement that does not begin with SELECT after upper-casing
and stripping, and otherwise returns exactly the result of execute_query. -/
theorem claim_C8_read_query_guard (db : Str → DbOutcome) (sql : Str) :
    ((chars "SELECT").isPrefixOf (stripStr (upperStr sql)) = false →
      (execute_read_query db sql).success = false
      ∧ (execute_read_query db sql).error_type = some (chars "safety")
      ∧ ∀ db2, execute_read_query db2 sql = execute_read_query db sql)
    ∧ ((chars "SELECT").isPrefixOf (stripStr (upperStr sql)) = true →
      execute_read_query db sql = execute_query db sql) := by
  constructor
  · intro h
    refine ⟨?_, ?_, ?_⟩
    · simp [execute_read_query, h]
    · simp [execute_read_query, h]
    · intro db2
      simp [execute_read_query, h]
  · intro h
    simp [execute_read_query, h]

/-- Witness for C8: a non-SELECT statement yields the safety error independently
of the database, and a SELECT delegates. -/
theorem claim_C8_witness :
    (execute_read_query dbFailW (chars "DROP TABLE estates")).error_type
      = some (chars "safety")
    ∧ execute_read_query dbRows1000 (chars "DROP TABLE estates")
      = execute_read_query dbFailW (chars "DROP TABLE estates")
    ∧ execute_read_query dbFailW (chars "SELECT 2")
      = execute_query dbFailW (chars "SELECT 2") := by
  refine ⟨?_, ?_, ?_⟩
  · exact ((claim_C8_read_query_guard dbFailW (chars "DROP TABLE estates")).1
      (by decide)).2.1
  · exact ((claim_C8_read_query_guard dbFailW (chars "DROP TABLE estates")).1
      (by decide)).2.2 dbRows1000
  · exact (claim_C8_read_query_guard dbFailW (chars "SELECT 2")).2 (by decide)

/-- C2: on every successful execution the reported row count never exceeds
max_rows (1000); has_more is true exactly when the underlying result set holds
strictly more than max_rows rows; at exactly max_rows + 1 underlying rows the
count is max_rows with has_more true, and at exactly max_rows rows has_more is
false. -/
theorem claim_C2_row_cap_invariant (db : Str → DbOutcome) (sql : Str)
    (rows : List Row) (cols : List Str) (hdb : db sql = DbOutcome.ok rows cols) :
    (execute_query db sql).row_count.getD 0 ≤ maxRows
    ∧ ((execute_query db sql).has_more = some true ↔ maxRows < rows.length)
    ∧ (rows.length = maxRows + 1 →
        (execute_query db sql).row_count = some maxRows
        ∧ (execute_query db sql).has_more = some true)
    ∧ (rows.length = maxRows →
        (execute_query db sql).has_more = some false) := by
  have hmain : execute_query db sql =
      { success := true
        data := some (rows.take maxRows)
        columns := some cols
        row_count := some (rows.take maxRows).length
        has_more := some (!(rows.drop maxRows).isEmpty)
        query := sql } := by
    unfold execute_query
    rw [hdb]
  have hdropiff : (!(rows.drop maxRows).isEmpty) = true ↔ maxRows < rows.length := by
    rw [Bool.not_eq_true']
    rw [List.isEmpty_eq_false]
    rw [Ne, List.drop_eq_nil_iff]
    omega
  refine ⟨?_, ?_, ?_, ?_⟩
  · rw [hmain]
    simp only [Option.getD_some]
    rw [List.length_take]
    omega
  · rw [hmain]
    simp only [Option.some.injEq]
    constructor
    · intro h
      exact hdropiff.mp h
    · intro h
      exact hdropiff.mpr h
  · intro hlen
    rw [hmain]
    constructor
    · simp only [Option.some.injEq]
      rw [List.length_take]
      omega
    · simp only [Option.some.injEq]
      rw [Bool.not_eq_true']
      rw [List.isEmpty_eq_false]
      intro hnil
      rw [List.drop_eq_nil_iff] at hnil
      omega
  · intro hlen
    rw [hmain]
    simp only [Option.some.injEq]
    rw [Bool.not_eq_false']
    rw [List.isEmpty_iff]
    rw [List.drop_eq_nil_iff]
    omega

/-- Witness for C2 at the two boundary sizes. -/
theorem claim_C2_witness :
    (execute_query dbRows1001 (chars "SELECT 1")).row_count = some maxRows
    ∧ (execute_query dbRows1001 (chars "SELECT 1")).has_more = some true
    ∧ (execute_query dbRows1000 (chars "SELECT 1")).has_more = some false := by
  have h1 := claim_C2_row_cap_invariant dbRows1001 (chars "SELECT 1")
    (List.replicate 1001 ([] : Row)) [chars "c"] rfl
  have h2 := claim_C2_row_cap_invariant dbRows1000 (chars "SELECT 1")
    (List.replicate 1000 ([] : Row)) [chars "c"] rfl
  refine ⟨?_, ?_, ?_⟩
  · exact (h1.2.2.1 (by simp only [List.length_replicate]; decide)).1
  · exact (h1.2.2.1 (by simp only [List.length_replicate]; decide)).2
  · exact h2.2.2.2 (by simp only [List.length_replicate]; decide)

/-- C1: any SQL string with a case-insensitive whole-word occurrence of a
denylisted keyword (DROP, DELETE, UPDATE, INSERT, ALTER, CREATE, TRUNCATE,
EXEC, EXECUTE, MERGE or BULK) is rejected by validate_query with valid = false
and safe = false. -/
theorem claim_C1_dangerous_rejected (sql : Str)
    (h : ∃ kw ∈ dangerousKeywords, hasWordOccurrence (upperStr sql) kw = true) :
    (validate_query sql).valid = false ∧ (validate_query sql).safe = false := by
  obtain ⟨kw, hmem, hocc⟩ := h
  have herr : (chars "Dangerous operation detected: " ++ kw) ∈ checkDangerousErrors sql := by
    unfold checkDangerousErrors
    rw [List.mem_filterMap]
    exact ⟨kw, hmem, by rw [hocc]; rfl⟩
  have herr2 : (chars "Dangerous operation detected: " ++ kw) ∈
      checkDangerousErrors sql ++ checkSyntaxErrors sql ++ checkInjectionErrors sql :=
    List.mem_append_left _ (List.mem_append_left _ herr)
  constructor
  · simp only [validate_query]
    exact isEmpty_eq_false_of_mem herr2
  · simp only [validate_query]
    apply isEmpty_eq_false_of_mem
    rw [List.mem_filter]
    refine ⟨herr2, ?_⟩
    rw [lowerStr_append]
    have hpref : (chars "dangerous").isPrefixOf
        (lowerStr (chars "Dangerous operation detected: ") ++ lowerStr kw) = true := by
      rw [show lowerStr (chars "Dangerous operation detected: ")
          = chars "dangerous" ++ chars " operation detected: " from by decide]
      rw [List.append_assoc]
      exact isPrefixOf_append_self _ _
    exact containsSubB_of_prefixOf hpref

/-- Witness for C1 at a concrete dangerous statement. -/
theorem claim_C1_witness :
    (validate_query (chars "DROP TABLE users")).valid = false
    ∧ (validate_query (chars "DROP TABLE users")).safe = false :=
  claim_C1_dangerous_rejected (chars "DROP TABLE users") (by decide)

/-- C7: every SQL string that, after comment stripping, starts with SELECT
(case-insensitive, after trimming), has balanced parentheses, even counts of
unescaped single and double quotes and at most one semicolon, and that contains
no denylisted dangerous keyword and no injection pattern, is accepted by
validate_query with valid = true and an empty error list; performance findings
never contribute to the errors. -/
theorem claim_C7_wellformed_select_valid (sql : Str)
    (hpar : countChar '(' (remove_comments sql) = countChar ')' (remove_comments sql))
    (hsq : ((countChar qc (remove_comments sql) : Int)
      - (countSubstr (remove_comments sql) [bs, qc] : Int)) % 2 = 0)
    (hdq : ((countChar '"' (remove_comments sql) : Int)
      - (countSubstr (remove_comments sql) [bs, '"'] : Int)) % 2 = 0)
    (hsel : (chars "SELECT").isPrefixOf (stripStr (upperStr (remove_comments sql))) = true)
    (hsemi : countChar ';' (remove_comments sql) ≤ 1)
    (hdang : ∀ kw ∈ dangerousKeywords, hasWordOccurrence (upperStr sql) kw = false)
    (hp1 : matchSemiDashDash (lowerStr sql) = false)
    (hp2 : matchSemiBlockOpen (lowerStr sql) = false)
    (hp3 : matchUnionSelectComment (lowerStr sql) = false)
    (hp4 : matchCommentThenSelect (lowerStr sql) = false)
    (hs1 : containsSubB (lowerStr sql) (chars "<script") = false)
    (hs2 : containsSubB (lowerStr sql) (chars "javascript:") = false) :
    (validate_query sql).valid = true ∧ (validate_query sql).errors = [] := by
  have hdangE : checkDangerousErrors sql = [] := by
    unfold checkDangerousErrors
    rw [List.filterMap_eq_nil_iff]
    intro kw hkw
    rw [hdang kw hkw]
    rfl
  have h5 : ¬(1 < countChar ';' (remove_comments sql)) := by omega
  have hsynE : checkSyntaxErrors sql = [] := by
    simp only [checkSyntaxErrors]
    rw [hpar, hsq, hdq, hsel]
    simp [h5]
  have hinjE : checkInjectionErrors sql = [] := by
    simp only [checkInjectionErrors]
    rw [hp1, hp2, hp3, hp4, hs1, hs2]
    simp
  constructor
  · simp only [validate_query]
    rw [hdangE, hsynE, hinjE]
    rfl
  · simp only [validate_query]
    rw [hdangE, hsynE, hinjE]
    rfl

/-- Witness for C7 at a concrete well-formed SELECT. -/
theorem claim_C7_witness :
    (validate_query (chars "SELECT name FROM estates")).valid = true
    ∧ (validate_query (chars "SELECT name FROM estates")).errors = [] :=
  claim_C7_wellformed_select_valid (chars "SELECT name FROM estates")
    (by decide) (by decide) (by decide) (by decide) (by decide) (by decide)
    (by decide) (by decide) (by decide) (by decide) (by decide) (by decide)

/-- C4 (amended): for successful execution results the classification applies
the aggregation-fragment test FIRST, then the single-value test, then the
tabular rendering: any result with a column name containing an aggregation
fragment is rendered as an aggregation result (even when it has exactly one row
and one column); the single-value rendering applies only when no column name
carries a fragment and the result is one row with one entry (whose column, when
present, must be a key of the row — otherwise the source raises); everything
else with data is tabular. -/
theorem claim_C4_classification_order (er : ExecResult) (q : Str)
    (hs : er.success = true) :
    (is_aggregation_result (er.data.getD []) (er.columns.getD []) = true →
      (format_results er q).map (fun fr => fr.result_type)
        = some (some (chars "aggregation")))
    ∧ (is_aggregation_result (er.data.getD []) (er.columns.getD []) = false →
       is_single_value_result (er.data.getD []) = true →
       (er.columns.getD [] = []
         ∨ (lookupRow ((er.data.getD []).headD [])
             ((er.columns.getD []).headD [])).isSome = true) →
      (format_results er q).map (fun fr => fr.result_type)
        = some (some (chars "single_value")))
    ∧ (is_aggregation_result (er.data.getD []) (er.columns.getD []) = false →
       is_single_value_result (er.data.getD []) = false →
       er.data.getD [] ≠ [] →
      (format_results er q).map (fun fr => fr.result_type)
        = some (some (chars "table"))) := by
  have hcond : ¬(er.success = false) := by rw [hs]; simp
  refine ⟨?_, ?_, ?_⟩
  · intro hagg
    have hd : er.data.getD [] ≠ [] := by
      intro h
      rw [is_aggregation_result, h] at hagg
      simp at hagg
    simp only [format_results, if_neg hcond, hagg, if_pos]
    cases hdata : er.data.getD [] with
    | nil => exact absurd hdata hd
    | cons r rest =>
      simp [format_aggregation_result, hdata]
  · intro hagg hsv hk
    cases hdata : er.data.getD [] with
    | nil =>
      rw [hdata] at hsv
      exact absurd hsv (by simp [is_single_value_result])
    | cons r rest =>
      cases rest with
      | cons r2 rest2 =>
        rw [hdata] at hsv
        exact absurd hsv (by simp [is_single_value_result])
      | nil =>
        simp only [format_results, if_neg hcond, hagg, hsv]
        simp only [Bool.false_eq_true, if_false, if_true]
        cases hcols : er.columns.getD [] with
        | nil =>
          simp [format_single_value_result, hdata, hcols]
        | cons c cs =>
          have hsome : (lookupRow r c).isSome = true := by
            cases hk with
            | inl h => rw [hcols] at h; cases h
            | inr h => rw [hdata, hcols] at h; simpa using h
          obtain ⟨v, hv⟩ := Option.isSome_iff_exists.mp hsome
          simp [format_single_value_result, hdata, hcols, hv]
  · intro hagg hsv hd
    cases hdata : er.data.getD [] with
    | nil => exact absurd hdata hd
    | cons r rest =>
      simp only [format_results, if_neg hcond, hagg, hsv]
      simp only [Bool.false_eq_true, if_false]
      simp [format_table_result, hdata]

/-- C4 counterexample: a successful result with exactly one row and one column
whose column name carries an aggregation fragment is classified as aggregation,
not as single_value, refuting the claimed classification order. -/
theorem claim_C4_counterexample :
    (format_results erAggW (chars "what is the average price")).map
        (fun fr => fr.result_type) = some (some (chars "aggregation"))
    ∧ (format_results erAggW (chars "what is the average price")).map
        (fun fr => fr.result_type) ≠ some (some (chars "single_value")) := by
  decide

/-- Witness for C4 exercising all three classification branches. -/
theorem claim_C4_witness :
    (format_results erAggW (chars "q")).map (fun fr => fr.result_type)
      = some (some (chars "aggregation"))
    ∧ (format_results erSingleW (chars "q")).map (fun fr => fr.result_type)
      = some (some (chars "single_value"))
    ∧ (format_results erTableW (chars "q")).map (fun fr => fr.result_type)
      = some (some (chars "table")) := by
  refine ⟨?_, ?_, ?_⟩
  · exact (claim_C4_classification_order erAggW (chars "q") rfl).1 (by decide)
  · exact (claim_C4_classification_order erSingleW (chars "q") rfl).2.1
      (by decide) (by decide) (by decide)
  · exact (claim_C4_classification_order erTableW (chars "q") rfl).2.2
      (by decide) (by decide) (by decide)

/-- C5 (amended): in WHERE-clause construction, a filter of the shape
identifier = value whose column belongs to some named table is attributed to the
first such table; the rendered condition is qualified by the alias e when that
table is estates and more than one table participates, by the alias t when it is
transactions and more than one table participates, and by the FULL TABLE NAME in
every other case (not by the alias table of _get_table_alias); filters whose
column matches no column of any named table are silently dropped and produce no
error. -/
theorem claim_C5_where_attribution (tables : List Str) (schema : SchemaInfo) :
    (∀ f col val t, parseFilter f = some (col, val) →
      find_column_table col tables schema = some t →
      build_where_conditions [f] tables schema =
        some ((if 1 < tables.length ∧ t = chars "estates" then chars "e"
               else if 1 < tables.length ∧ t = chars "transactions" then chars "t"
               else t) ++ chars "." ++ col ++ chars " = " ++ val))
    ∧ (∀ filters : List Str, (∀ f ∈ filters, ∀ col val,
        parseFilter f = some (col, val) →
        find_column_table col tables schema = none) →
      build_where_conditions filters tables schema = none) := by
  constructor
  · intro f col val t hp hf
    have hrender : renderFilterCondition tables schema f =
        some ((if 1 < tables.length ∧ t = chars "estates" then chars "e"
               else if 1 < tables.length ∧ t = chars "transactions" then chars "t"
               else t) ++ chars "." ++ col ++ chars " = " ++ val) := by
      unfold renderFilterCondition
      rw [hp]
      dsimp only
      rw [hf]
      dsimp only
      rcases Nat.lt_or_ge 1 tables.length with h1 | h1
      · by_cases h2 : t = chars "estates"
        · simp [h1, h2, List.append_assoc]
          rfl
        · by_cases h3 : t = chars "transactions"
          · have hne : ¬(chars "transactions" = chars "estates") := by decide
            simp [h1, h2, h3, hne, List.append_assoc]
            rfl
          · simp [h1, h2, h3, List.append_assoc]
      · have h1n : ¬(1 < tables.length) := by omega
        simp [h1n, List.append_assoc]
    unfold build_where_conditions
    simp [hrender, joinSep]
  · intro filters hnone
    unfold build_where_conditions
    have hfm : filters.filterMap (renderFilterCondition tables schema) = [] := by
      rw [List.filterMap_eq_nil_iff]
      intro f hf
      unfold renderFilterCondition
      cases hp : parseFilter f with
      | none => rfl
      | some p =>
        obtain ⟨col, val⟩ := p
        dsimp only
        rw [hnone f hf col val hp]
    cases hempty : filters.isEmpty
    · simp [hempty, hfm]
    · simp [hempty]

/-- C5 counterexample: with estates and buildings named, a filter on a buildings
column is qualified by the full table name buildings, not by its alias b,
refuting the alias-qualification part of the claim. -/
theorem claim_C5_counterexample :
    build_where_conditions [chars "building_name = X"]
        [chars "estates", chars "buildings"] schemaC5
      = some (chars "buildings.building_name = X")
    ∧ get_table_alias (chars "buildings") = some (chars "b")
    ∧ chars "buildings.building_name = X" ≠ chars "b.building_name = X" := by
  decide

/-- Witness for C5: a transactions-owned filter in a multi-table query is
qualified by alias t; an unknown column is silently dropped. -/
theorem claim_C5_witness :
    build_where_conditions [chars "price = 3"]
        [chars "estates", chars "transactions"] cacheW
      = some (chars "t.price = 3")
    ∧ build_where_conditions [chars "zzz = 4"]
        [chars "estates", chars "transactions"] cacheW = none := by
  constructor
  · have h := (claim_C5_where_attribution
        [chars "estates", chars "transactions"] cacheW).1
      (chars "price = 3") (chars "price") (chars "3") (chars "transactions")
      (by decide) (by decide)
    rw [h]
    decide
  · apply (claim_C5_where_attribution [chars "estates", chars "transactions"] cacheW).2
    intro f hf col val hp
    rw [List.mem_singleton] at hf
    subst hf
    rw [show parseFilter (chars "zzz = 4") = some (chars "zzz", chars "4")
      from by decide] at hp
    injection hp with h
    cases h
    decide

theorem append_left_isEmpty_false {a : Str} (b : Str) (h : a.isEmpty = false) :
    (a ++ b).isEmpty = false := by
  cases a with
  | nil => simp at h
  | cons x xs => rfl

/-- C6 (amended): for every valid intent with an aggregation set and exactly one
(nonempty-named) table whose resolved column list is nonempty, whose resolved
first column is nonempty and names a column of that table, generate_query
returns SQL containing the upper-cased aggregation name immediately followed by
an opening parenthesis and containing the resolved column name. When the column
list is empty or the resolved first column is not a column of the table,
generate_query instead returns no query (see the counterexample). -/
theorem claim_C6_simple_aggregation (intent : Intent) (schema : SchemaInfo)
    (t : Str) (cols : List Str) (c0 : Str) (rest : List Str) (a : Str)
    (ht : intent.tables = [t]) (htne : t.isEmpty = false)
    (hlook : lookupTable schema t = some cols)
    (hagg : intent.aggregation = some a) (ha : a.isEmpty = false)
    (hcols : intent.columns = c0 :: rest)
    (hcne : (fixOneColumn intent.tables schema c0).isEmpty = false)
    (hmem : fixOneColumn intent.tables schema c0 ∈ cols) :
    ∃ sql, generate_query intent schema = some sql
      ∧ occursIn (upperStr a ++ chars "(") sql
      ∧ occursIn (fixOneColumn intent.tables schema c0) sql := by
  have hfixtab : (fix_column_mappings intent schema).tables = [t] := ht
  have hfixagg : (fix_column_mappings intent schema).aggregation = some a := hagg
  have hfixcols : (fix_column_mappings intent schema).columns
      = fixOneColumn intent.tables schema c0
        :: rest.map (fixOneColumn intent.tables schema) := by
    show intent.columns.map (fixOneColumn intent.tables schema) = _
    rw [hcols]
    rfl
  have hqt : determine_query_type (fix_column_mappings intent schema)
      = chars "simple_aggregation" := by
    unfold determine_query_type
    rw [hfixagg, hfixtab]
    simp [aggTruthy, ha]
  have hbase : ∃ tail,
      generate_simple_aggregation_query (fix_column_mappings intent schema) schema
        = some ((chars "SELECT " ++ upperStr a ++ chars "("
            ++ fixOneColumn intent.tables schema c0 ++ chars ") AS " ++ a ++ chars "_"
            ++ fixOneColumn intent.tables schema c0 ++ chars " FROM " ++ t) ++ tail) := by
    simp only [generate_simple_aggregation_query, hfixtab, htne, hlook, hfixagg,
      hfixcols, getAgg, hcne, decide_eq_true hmem, Bool.not_true,
      Bool.false_eq_true, if_false,
      show (fix_column_mappings intent schema).filters = intent.filters from rfl]
    cases hfe : intent.filters.isEmpty
    · cases hw : build_where_conditions intent.filters [t] schema with
      | none => exact ⟨[], by simp [hw]⟩
      | some w => exact ⟨chars " WHERE " ++ w, by simp [hw, List.append_assoc]⟩
    · exact ⟨[], by simp⟩
  obtain ⟨tail, hgen⟩ := hbase
  refine ⟨(chars "SELECT " ++ upperStr a ++ chars "("
      ++ fixOneColumn intent.tables schema c0 ++ chars ") AS " ++ a ++ chars "_"
      ++ fixOneColumn intent.tables schema c0 ++ chars " FROM " ++ t) ++ tail,
    ?_, ?_, ?_⟩
  · have hne : ((chars "SELECT " ++ upperStr a ++ chars "("
        ++ fixOneColumn intent.tables schema c0 ++ chars ") AS " ++ a ++ chars "_"
        ++ fixOneColumn intent.tables schema c0 ++ chars " FROM " ++ t) ++ tail).isEmpty
        = false := by
      repeat apply append_left_isEmpty_false
      rfl
    simp only [generate_query]
    rw [hqt]
    rw [if_neg (by decide), if_pos rfl]
    rw [hgen]
    simp [hne]
    intro h
    exact absurd h (by decide)
  · refine ⟨chars "SELECT ",
      fixOneColumn intent.tables schema c0 ++ chars ") AS " ++ a ++ chars "_"
        ++ fixOneColumn intent.tables schema c0 ++ chars " FROM " ++ t ++ tail, ?_⟩
    simp [List.append_assoc]
  · refine ⟨chars "SELECT " ++ upperStr a ++ chars "(",
      chars ") AS " ++ a ++ chars "_" ++ fixOneColumn intent.tables schema c0
        ++ chars " FROM " ++ t ++ tail, ?_⟩
    simp [List.append_assoc]

/-- C6 counterexample: a schema-valid intent with an aggregation set and exactly
one table but an empty column list makes generate_query return no query,
refuting the unconditional claim. -/
theorem claim_C6_counterexample :
    (validate_intent cacheW intentEmptyColsW).valid = true
    ∧ generate_query intentEmptyColsW
        ((validate_intent cacheW intentEmptyColsW).schema_info) = none := by
  decide

/-- Witness for C6 at a concrete resolvable intent. -/
theorem claim_C6_witness :
    ∃ sql, generate_query intentSimpleAggW
        ((validate_intent cacheW intentSimpleAggW).schema_info) = some sql
      ∧ occursIn (upperStr (chars "avg") ++ chars "(") sql
      ∧ occursIn (fixOneColumn intentSimpleAggW.tables
          ((validate_intent cacheW intentSimpleAggW).schema_info) (chars "price")) sql :=
  claim_C6_simple_aggregation intentSimpleAggW
    ((validate_intent cacheW intentSimpleAggW).schema_info)
    (chars "transactions")
    [chars "transaction_id", chars "unit_id", chars "price", chars "transaction_date"]
    (chars "price") [] (chars "avg")
    (by decide) (by decide) (by decide) (by decide) (by decide) (by decide)
    (by decide) (by decide)

theorem two_mem_one_lt_length {α : Type} {a b : α} {l : List α}
    (ha : a ∈ l) (hb : b ∈ l) (hne : a ≠ b) : 1 < l.length := by
  cases l with
  | nil => cases ha
  | cons x xs =>
    cases xs with
    | cons y ys =>
      simp only [List.length_cons]
      omega
    | nil =>
      rw [List.mem_singleton] at ha hb
      exact absurd (ha.trans hb.symm) hne

theorem lookup_relevant {cache : SchemaInfo} {tables : List Str} {t : Str}
    {cs : List Str} (hmem : t ∈ tables) (hc : lookupTable cache t = some cs) :
    lookupTable (relevantSchemaInfo cache tables) t = some cs := by
  induction tables with
  | nil => cases hmem
  | cons t0 rest ih =>
    rw [List.mem_cons] at hmem
    unfold relevantSchemaInfo
    rw [List.filterMap_cons]
    cases h0 : lookupTable cache t0 with
    | none =>
      simp only [Option.map_none']
      cases hmem with
      | inl heq =>
        rw [heq] at hc
        rw [hc] at h0
        cases h0
      | inr hmem2 => exact ih hmem2
    | some c0 =>
      simp only [Option.map_some']
      by_cases heq : t0 = t
      · have : c0 = cs := by
          rw [heq] at h0
          rw [h0] at hc
          injection hc
        unfold lookupTable
        rw [List.find?_cons_of_pos _ (by simp [heq])]
        simp [this]
      · unfold lookupTable
        rw [List.find?_cons_of_neg _ (by simp [heq])]
        cases hmem with
        | inl h => exact absurd h.symm heq
        | inr hmem2 => exact ih hmem2

theorem column_exists_of_mem {schema : SchemaInfo} {tables : List Str} {t c : Str}
    {cs : List Str} (hmem : t ∈ tables) (hlook : lookupTable schema t = some cs)
    (hc : c ∈ cs) : column_exists_in_tables c tables schema = true := by
  unfold column_exists_in_tables find_column_table
  rw [List.find?_isSome]
  exact ⟨t, hmem, by rw [hlook]; exact decide_eq_true hc⟩

theorem selectSemantic_exists {tables : List Str} {schema : SchemaInfo}
    {cols : List Str} {c : Str} (h : selectSemantic tables schema cols = some c) :
    column_exists_in_tables c tables schema = true := by
  induction cols with
  | nil => cases h
  | cons c0 rest ih =>
    unfold selectSemantic at h
    cases hm : lookupAssoc semanticMappingSelect (normalizeCol c0) with
    | none =>
      rw [hm] at h
      exact ih h
    | some mapped =>
      rw [hm] at h
      dsimp only at h
      cases he : column_exists_in_tables mapped tables schema with
      | false =>
        rw [he] at h
        simp only [Bool.false_eq_true, if_false] at h
        exact ih h
      | true =>
        rw [he] at h
        simp only [if_true] at h
        injection h with h2
        rw [← h2]
        exact he

theorem select_aggregation_column_exists {intent : Intent} {schema : SchemaInfo}
    {c : Str} (h : select_aggregation_column intent schema = some c) :
    column_exists_in_tables c intent.tables schema = true := by
  unfold select_aggregation_column at h
  cases h1 : selectSemantic intent.tables schema intent.columns with
  | some c1 =>
    rw [h1] at h
    injection h with h2
    rw [← h2]
    exact selectSemantic_exists h1
  | none =>
    rw [h1] at h
    cases h2 : intent.columns.find?
        (fun col => column_exists_in_tables col intent.tables schema) with
    | some c2 =>
      rw [h2] at h
      injection h with h3
      rw [← h3]
      simpa using List.find?_some h2
    | none =>
      rw [h2] at h
      simpa using List.find?_some h

theorem select_aggregation_column_isSome {intent : Intent} {schema : SchemaInfo}
    (h : column_exists_in_tables (chars "price") intent.tables schema = true) :
    (select_aggregation_column intent schema).isSome = true := by
  unfold select_aggregation_column
  cases h1 : selectSemantic intent.tables schema intent.columns with
  | some c1 => rfl
  | none =>
    cases h2 : intent.columns.find?
        (fun col => column_exists_in_tables col intent.tables schema) with
    | some c2 => rfl
    | none =>
      rw [Option.isSome_iff_exists]
      have : priceCandidates.find?
          (fun cand => column_exists_in_tables cand intent.tables schema)
          = some (chars "price") := by
        unfold priceCandidates
        exact List.find?_cons_of_pos _ (by simpa using h)
      exact ⟨chars "price", this⟩

theorem lookupTable_mem_of_eq_some {schema : SchemaInfo} {t : Str} {cs : List Str}
    (h : lookupTable schema t = some cs) : ∃ p ∈ schema, p.1 = t ∧ p.2 = cs := by
  unfold lookupTable at h
  cases hf : schema.find? (fun p => decide (p.1 = t)) with
  | none =>
    rw [hf] at h
    cases h
  | some p =>
    rw [hf] at h
    simp only [Option.map_some'] at h
    refine ⟨p, List.mem_of_find?_eq_some hf, ?_, ?_⟩
    · exact of_decide_eq_true (by simpa using List.find?_some hf)
    · injection h

theorem find_column_table_cols {c : Str} {tables : List Str} {schema : SchemaInfo}
    {t : Str} (h : find_column_table c tables schema = some t) :
    ∃ cols, lookupTable schema t = some cols ∧ c ∈ cols := by
  have hp := List.find?_some h
  cases hl : lookupTable schema t with
  | none =>
    rw [hl] at hp
    cases hp
  | some cols =>
    rw [hl] at hp
    exact ⟨cols, rfl, of_decide_eq_true hp⟩

theorem lookup_relevant_inv {cache : SchemaInfo} {tables : List Str} {t : Str}
    {cs : List Str} (h : lookupTable (relevantSchemaInfo cache tables) t = some cs) :
    lookupTable cache t = some cs := by
  obtain ⟨p, hpmem, hp1, hp2⟩ := lookupTable_mem_of_eq_some h
  unfold relevantSchemaInfo at hpmem
  rw [List.mem_filterMap] at hpmem
  obtain ⟨a, _, hfa⟩ := hpmem
  cases hla : lookupTable cache a with
  | none =>
    rw [hla] at hfa
    cases hfa
  | some cols =>
    rw [hla] at hfa
    simp only [Option.map_some'] at hfa
    injection hfa with hfa2
    rw [← hfa2] at hp1 hp2
    dsimp only at hp1 hp2
    rw [← hp1, hla, hp2]

/-- C3: for every valid intent naming both estates and transactions with an
aggregation set, generate_query produces SQL containing JOIN and the fixed
three-hop join chain through buildings and units. Two housing-schema facts
(true of the live database and of the repository test fixtures) are taken as
hypotheses: the transactions table carries a price column, and table and column
names are nonempty (the source rejects an empty-named selected column or target
table through its falsy guards, and an empty table name would raise in
_get_table_alias). -/
theorem claim_C3_join_chain (cache : SchemaInfo) (intent : Intent) (tcols : List Str)
    (_hval : (validate_intent cache intent).valid = true)
    (hE : chars "estates" ∈ intent.tables)
    (hT : chars "transactions" ∈ intent.tables)
    (hA : aggTruthy intent.aggregation = true)
    (hP : lookupTable cache (chars "transactions") = some tcols)
    (hPin : chars "price" ∈ tcols)
    (hNE : ∀ t ∈ intent.tables, t ≠ [])
    (hColsNE : ∀ p ∈ cache, ([] : Str) ∉ p.2) :
    ∃ sql, generate_query intent ((validate_intent cache intent).schema_info) = some sql
      ∧ occursIn (chars "JOIN") sql
      ∧ occursIn joinChainStr sql := by
  have hschema : (validate_intent cache intent).schema_info
      = relevantSchemaInfo cache intent.tables := rfl
  set S := (validate_intent cache intent).schema_info with hS
  have hslice : lookupTable S (chars "transactions") = some tcols := by
    rw [hschema]
    exact lookup_relevant hT hP
  have hexist : column_exists_in_tables (chars "price") intent.tables S = true :=
    column_exists_of_mem hT hslice hPin
  have hfix_tab : (fix_column_mappings intent S).tables = intent.tables := rfl
  have hfix_agg : (fix_column_mappings intent S).aggregation = intent.aggregation := rfl
  have hlen : 1 < intent.tables.length := two_mem_one_lt_length hE hT (by decide)
  have hqt : determine_query_type (fix_column_mappings intent S)
      = chars "aggregation_with_join" := by
    unfold determine_query_type
    rw [hfix_agg, hfix_tab, hA, decide_eq_true hlen]
    rfl
  have hsel : (select_aggregation_column (fix_column_mappings intent S) S).isSome
      = true := by
    apply select_aggregation_column_isSome
    rw [hfix_tab]
    exact hexist
  obtain ⟨c, hc⟩ := Option.isSome_iff_exists.mp hsel
  have hcex : column_exists_in_tables c intent.tables S = true := by
    have h2 := select_aggregation_column_exists hc
    rwa [hfix_tab] at h2
  have hfind : (find_column_table c intent.tables S).isSome = true := hcex
  obtain ⟨tt, htt⟩ := Option.isSome_iff_exists.mp hfind
  have httmem : tt ∈ intent.tables := List.mem_of_find?_eq_some htt
  have httne : tt ≠ [] := hNE tt httmem
  obtain ⟨al, hal⟩ : ∃ al, get_table_alias tt = some al := by
    cases tt with
    | nil => exact absurd rfl httne
    | cons x xs => exact ⟨_, rfl⟩
  obtain ⟨ccols, hccols, hcin⟩ := find_column_table_cols htt
  have hccols2 : lookupTable (relevantSchemaInfo cache intent.tables) tt = some ccols := by
    rw [← hschema]
    exact hccols
  obtain ⟨p, hpmem, hp1, hp2⟩ := lookupTable_mem_of_eq_some (lookup_relevant_inv hccols2)
  have hcempty : c.isEmpty = false := by
    cases hcc : c with
    | nil =>
      exact absurd (show ([] : Str) ∈ p.2 by rw [hp2]; rw [← hcc]; exact hcin)
        (hColsNE p hpmem)
    | cons x xs => rfl
  have httempty : tt.isEmpty = false := by
    cases htc : tt with
    | nil => exact absurd htc httne
    | cons x xs => rfl
  have hbjp : build_join_path intent.tables S = some (chars "estates e",
      [chars "JOIN buildings b ON e.estate_id = b.estate_id",
       chars "JOIN units u ON b.building_id = u.building_id",
       chars "JOIN transactions t ON u.unit_id = t.unit_id"]) := by
    unfold build_join_path
    rw [decide_eq_true hE, decide_eq_true hT]
    rfl
  have hjoin : joinSep (chars " ")
      [chars "JOIN buildings b ON e.estate_id = b.estate_id",
       chars "JOIN units u ON b.building_id = u.building_id",
       chars "JOIN transactions t ON u.unit_id = t.unit_id"] = joinChainStr := by
    decide
  have hnotlt : ¬(intent.tables.length < 2) := by omega
  have hbase : ∃ tail, generate_aggregation_join_query (fix_column_mappings intent S) S
      = some ((chars "SELECT "
          ++ (upperStr (getAgg intent.aggregation) ++ chars "(" ++ al ++ chars "."
              ++ c ++ chars ") AS " ++ getAgg intent.aggregation ++ chars "_" ++ c)
          ++ chars " FROM " ++ chars "estates e" ++ chars " " ++ joinChainStr)
          ++ tail) := by
    simp only [generate_aggregation_join_query, if_neg hnotlt, hfix_tab, hfix_agg,
      hc, hcempty, htt, httempty, hbjp, hal, hjoin,
      Bool.false_eq_true, if_false,
      show (fix_column_mappings intent S).filters = intent.filters from rfl]
    cases hfe : intent.filters.isEmpty
    · cases hw : build_where_conditions intent.filters intent.tables S with
      | none => exact ⟨[], by simp [hw]⟩
      | some w => exact ⟨chars " WHERE " ++ w, by simp [hw, List.append_assoc]⟩
    · exact ⟨[], by simp⟩
  obtain ⟨tail, hgen⟩ := hbase
  have hchain : occursIn joinChainStr ((chars "SELECT "
      ++ (upperStr (getAgg intent.aggregation) ++ chars "(" ++ al ++ chars "."
          ++ c ++ chars ") AS " ++ getAgg intent.aggregation ++ chars "_" ++ c)
      ++ chars " FROM " ++ chars "estates e" ++ chars " " ++ joinChainStr) ++ tail) := by
    refine ⟨chars "SELECT "
      ++ (upperStr (getAgg intent.aggregation) ++ chars "(" ++ al ++ chars "."
          ++ c ++ chars ") AS " ++ getAgg intent.aggregation ++ chars "_" ++ c)
      ++ chars " FROM " ++ chars "estates e" ++ chars " ", tail, ?_⟩
    simp [List.append_assoc]
  refine ⟨_, ?_, ?_, hchain⟩
  · have hne : ((chars "SELECT "
        ++ (upperStr (getAgg intent.aggregation) ++ chars "(" ++ al ++ chars "."
            ++ c ++ chars ") AS " ++ getAgg intent.aggregation ++ chars "_" ++ c)
        ++ chars " FROM " ++ chars "estates e" ++ chars " " ++ joinChainStr)
        ++ tail).isEmpty = false := by
      repeat apply append_left_isEmpty_false
      rfl
    simp only [generate_query]
    rw [hqt]
    rw [if_pos rfl]
    rw [hgen]
    simp [hne]
    intro h
    exact absurd h (by decide)
  · refine occursIn_trans ?_ hchain
    exact ⟨[], chars " buildings b ON e.estate_id = b.estate_id JOIN units u ON b.building_id = u.building_id JOIN transactions t ON u.unit_id = t.unit_id", by decide⟩

/-- Witness for C3 at a concrete valid two-table aggregation intent over the
housing schema. -/
theorem claim_C3_witness :
    ∃ sql, generate_query intentJoinW
        ((validate_intent cacheW intentJoinW).schema_info) = some sql
      ∧ occursIn (chars "JOIN") sql
      ∧ occursIn joinChainStr sql :=
  claim_C3_join_chain cacheW intentJoinW
    [chars "transaction_id", chars "unit_id", chars "price", chars "transaction_date"]
    (by decide) (by decide) (by decide) (by decide) (by decide) (by decide)
    (by decide) (by decide)
